import Mathlib

/-!
Verification of the Bruno pipeline backend (FastAPI server that turns a
silent video into a video with AI-composed music).

Shallow embedding of the pipeline source:
* `src/backend/api/suno_generate.py` — audio generation and the polling loop;
* `src/backend/api/openai_prompt.py` — prompt composition and section timings;
* `src/backend/api/combine_media.py` — audio/video merge;
* `src/backend/main.py` — the streaming (`progress_generator`) and
  non-streaming (`generate_video_with_audio`) pipeline endpoints.

Durations are modelled as rationals, remote services as explicit
response parameters, and filesystem effects as boolean on-disk flags.
-/

namespace Bruno

/-! ## Long-running-job poller (`src/backend/api/suno_generate.py`) -/

/-- `POLL_INTERVAL = 5` — seconds between status checks. -/
def POLL_INTERVAL : ℕ := 5

/-- `MAX_WAIT_TIME = 300` — max seconds to wait for generation. -/
def MAX_WAIT_TIME : ℕ := 300

/-- One observation of the remote clip by a status check (`GET /clips`):
the request itself can fail (`httpx.HTTPError`), the body can fail to be a
non-empty list, or it yields a clip object whose fields `status`,
`audio_url` and `metadata.error_message` we record (each defaulting to `""`
resp. `"Unknown error"` via `.get` in the source). -/
inductive PollResponse where
  | fetchError
  | emptyList
  | clip (status : String) (audioUrl : String) (errMsg : String)
  deriving DecidableEq, Repr

/-- Outcome of `_poll_for_completion`: the returned `audio_url`, the
`RuntimeError` message of an explicit remote error status, or the
`TimeoutError` raised after the loop. -/
inductive PollResult where
  | success (url : String)
  | remoteError (msg : String)
  | timeout
  deriving DecidableEq, Repr

/-- A remote interaction issued by the poller.  The source's loop issues
exactly one status check (`client.get(f"{SUNO_API_URL}/clips", ...)`) per
iteration; `cancelRequest` is listed so that the absence of any
cancellation call in the source is expressible. -/
inductive PollAction where
  | statusCheck
  | cancelRequest
  deriving DecidableEq, Repr

/-- The body of `_poll_for_completion`'s `while elapsed < MAX_WAIT_TIME`
loop.  In the source `elapsed` starts at `0` and every iteration adds
exactly `POLL_INTERVAL`, so the guard admits exactly
`MAX_WAIT_TIME / POLL_INTERVAL` iterations; `c` counts the iterations the
guard still admits (`c = (MAX_WAIT_TIME - elapsed) / POLL_INTERVAL`), and
`i` indexes the poll ticks into the response sequence.  Each iteration:
issue the status check; on `httpx.HTTPError` sleep and retry; on a
non-list/empty body sleep and retry; on a clip, return the `audio_url`
when `status == "complete"` and the url is non-empty (Python truthiness of
a string), raise on `status == "error"`, otherwise sleep and retry.
After the loop a `TimeoutError` is raised. -/
def pollAux (responses : ℕ → PollResponse) :
    ℕ → ℕ → List PollAction → PollResult × List PollAction
  | 0, _, acc => (.timeout, acc)
  | c + 1, i, acc =>
    let acc := acc ++ [PollAction.statusCheck]
    match responses i with
    | .fetchError => pollAux responses c (i + 1) acc
    | .emptyList => pollAux responses c (i + 1) acc
    | .clip status url errMsg =>
      if status = "complete" ∧ url ≠ "" then (.success url, acc)
      else if status = "error" then (.remoteError errMsg, acc)
      else pollAux responses c (i + 1) acc

/-- `_poll_for_completion`: run the polling loop from `elapsed = 0`,
i.e. with all `MAX_WAIT_TIME / POLL_INTERVAL = 60` admitted iterations. -/
def pollForCompletion (responses : ℕ → PollResponse) :
    PollResult × List PollAction :=
  pollAux responses (MAX_WAIT_TIME / POLL_INTERVAL) 0 []

/-- A response whose clip status stays in the pending states
(`"submitted"` or `"processing"`). -/
def PendingResponse (r : PollResponse) : Prop :=
  ∃ url m, r = .clip "submitted" url m ∨ r = .clip "processing" url m

/-! ## `generate_audio` (`src/backend/api/suno_generate.py`) -/

/-- A remote interaction issued by `generate_audio`: the `POST /generate`
submission, the poller's status checks, the audio download, and (never
issued by the source) a cancellation. -/
inductive AudioAction where
  | submitRequest
  | statusCheck
  | cancelRequest
  | downloadRequest
  deriving DecidableEq, Repr

def liftPollAction : PollAction → AudioAction
  | .statusCheck => .statusCheck
  | .cancelRequest => .cancelRequest

/-- Environment of one `generate_audio` call: the configured
`SUNO_API_KEY`, the outcome of the submission request (`Except` error
message / clip id), the status-check responses seen by the poller, and
the outcome of the final download. -/
structure AudioConfig where
  apiKey : String
  submitResponse : Except String String
  pollResponses : ℕ → PollResponse
  downloadResponse : Except String String

/-- `generate_audio`: guard on the key (`if not SUNO_API_KEY: raise
ValueError(...)` — Python string falsiness is emptiness), submit the
generation request, poll for completion, download the audio.  Returns the
result (`Except` exception message / downloaded file path) together with
the list of remote interactions attempted, in order. -/
def generate_audio (cfg : AudioConfig) : Except String String × List AudioAction :=
  if cfg.apiKey = "" then
    (.error "SUNO_API_KEY is missing in .env file", [])
  else
    match cfg.submitResponse with
    | .error m => (.error m, [.submitRequest])
    | .ok _genId =>
      let poll := pollForCompletion cfg.pollResponses
      let actions := AudioAction.submitRequest :: poll.2.map liftPollAction
      match poll.1 with
      | .success url =>
        match cfg.downloadResponse with
        | .error m =>
          (.error ("Failed to download audio from " ++ url ++ ": " ++ m),
            actions ++ [.downloadRequest])
        | .ok path => (.ok path, actions ++ [.downloadRequest])
      | .remoteError m => (.error ("Suno generation failed: " ++ m), actions)
      | .timeout =>
        (.error ("Suno generation timed out after " ++ toString MAX_WAIT_TIME ++ "s"),
          actions)

/-! ## Section timings and `generate_suno_prompt`
(`src/backend/api/openai_prompt.py`) -/

/-- The three derived section boundaries computed in
`generate_suno_prompt` before the chat-completion call. -/
structure SectionTimings where
  intro_end : ℚ
  verse_end : ℚ
  outro_start : ℚ
  deriving DecidableEq, Repr

/-- Section timing logic of the source:
`intro_end = min(video_duration * 0.25, 8)`,
`verse_end = min(video_duration * 0.75, video_duration - 3)`,
`outro_start = verse_end`. -/
def sectionTimings (d : ℚ) : SectionTimings :=
  let intro_end := min (d * (1 / 4)) 8
  let verse_end := min (d * (3 / 4)) (d - 3)
  { intro_end := intro_end, verse_end := verse_end, outro_start := verse_end }

/-- Python `str.strip()`: remove leading and trailing whitespace
(structural on the character list, so that concrete runs evaluate). -/
def pyStrip (s : String) : String :=
  ⟨((s.data.dropWhile Char.isWhitespace).reverse.dropWhile Char.isWhitespace).reverse⟩

/-- Helper for Python `str.split("\n")`: split the character list at every
newline, keeping empty pieces. -/
def splitLinesAux : List Char → List Char → List String
  | [], acc => [⟨acc.reverse⟩]
  | c :: cs, acc =>
    if c = '\n' then ⟨acc.reverse⟩ :: splitLinesAux cs []
    else splitLinesAux cs (c :: acc)

/-- Python `str.split("\n")`. -/
def splitLines (s : String) : List String := splitLinesAux s.data []

/-- Tags extraction of `generate_suno_prompt`: split the model output on
newlines; default to `"Cinematic, 100 BPM"`; at the first line whose strip
starts with `"["`, scan `j ∈ range(i+1, min(i+3, len(lines)))` — i.e. the
next (at most) two lines — and take the first stripped candidate that is
non-empty, contains a comma and has length `< 120`. -/
def extractTags (sunoPrompt : String) : String :=
  let lines := splitLines sunoPrompt
  match lines.findIdx? (fun line => (pyStrip line).data.head? = some '[') with
  | none => "Cinematic, 100 BPM"
  | some i =>
    let window := ((lines.drop (i + 1)).take 2).map pyStrip
    match window.find? (fun c => c ≠ "" && c.data.contains ',' && c.data.length < 120) with
    | some candidate => candidate
    | none => "Cinematic, 100 BPM"

structure PromptResult where
  prompt : String
  tags : String
  negative_tags : String
  deriving DecidableEq, Repr

/-- Environment of one `generate_suno_prompt` call: the video context,
the duration argument (`None` modelled as `none`), the chat-completion
outcome (`Except` `APIError` message / message content) and the outcome
of the nested negative-tags completion. -/
structure PromptConfig where
  videoContext : String
  videoDuration : Option ℚ
  modelResponse : Except String String
  negativeResponse : Except String String

/-- What one `generate_suno_prompt` call did: its result, and whether the
chat-completion request was issued (i.e. whether the call proceeded past
the duration guard). -/
structure PromptOutcome where
  result : Except String PromptResult
  calledModel : Bool
  deriving Repr

/-- `generate_suno_prompt`: the guard is `if not video_duration: raise
ValueError(...)` — Python falsiness of a float rejects exactly `None` and
`0`.  Past the guard the section timings are computed, the chat completion
runs (`APIError` is re-raised as `RuntimeError("OpenAI API failed: ...")`),
the content is stripped, tags are extracted, and `_generate_negative_tags`
falls back to a fixed string on any failure. -/
def generate_suno_prompt (cfg : PromptConfig) : PromptOutcome :=
  match cfg.videoDuration with
  | none =>
    { result := .error "video_duration is REQUIRED to generate accurate music timing",
      calledModel := false }
  | some d =>
    if d = 0 then
      { result := .error "video_duration is REQUIRED to generate accurate music timing",
        calledModel := false }
    else
      let _t := sectionTimings d
      match cfg.modelResponse with
      | .error e => { result := .error ("OpenAI API failed: " ++ e), calledModel := true }
      | .ok content =>
        let sunoPrompt := pyStrip content
        let tags := extractTags sunoPrompt
        let negTags :=
          match cfg.negativeResponse with
          | .ok s => pyStrip s
          | .error _ => "harsh, distorted, chaotic, muddy, robotic"
        { result := .ok { prompt := sunoPrompt, tags := tags, negative_tags := negTags },
          calledModel := true }

/-! ## Merge (`src/backend/api/combine_media.py`) -/

/-- The merged output as far as lengths are concerned: its total duration
and the time at which its audio track stops (silence after). -/
structure MergedClip where
  videoLen : ℚ
  audioEnd : ℚ
  deriving DecidableEq, Repr

/-- Modelled from the spec (and the source's own comments): moviepy's
`video_clip.set_audio(audio_clip)` followed by `write_videofile` keeps the
video clip's duration as the output duration; an audio track shorter than
the video simply stops at its own end, leaving silence — it is not looped
or padded. -/
def set_audio (videoLen audioLen : ℚ) : MergedClip :=
  { videoLen := videoLen, audioEnd := audioLen }

/-- `combine_video_audio`, length behaviour: if
`audio_clip.duration > video_clip.duration` the audio is first replaced by
`audio_clip.subclip(0, video_clip.duration)` (length exactly the video's),
then the audio is set on the video. -/
def combine_video_audio (videoLen audioLen : ℚ) : MergedClip :=
  let trimmedAudio := if audioLen > videoLen then videoLen else audioLen
  set_audio videoLen trimmedAudio

/-! ## The pipeline endpoints (`src/backend/main.py`) -/

/-- Outcome of one stage adapter call as seen by the orchestrator:
success, or an exception with message `msg`. -/
inductive Outcome where
  | ok
  | fail (msg : String)
  deriving DecidableEq, Repr

/-- Outcome of the Merge stage (`combine_video_audio`), which has two
distinguishable failure points with different on-disk effects: `failLoad`
is any exception raised before the output temp file exists (loading the
clips, trimming, `set_audio`); `failWrite` is an exception raised after
`tempfile.NamedTemporaryFile(delete=False, suffix=".mp4", ...)` has
already created the output file on disk — i.e. a `write_videofile`
failure, re-raised as `RuntimeError("Failed to write final video
file: ...")` — which leaves that file behind (nothing in
`combine_video_audio` or its callers deletes it on this path). -/
inductive MergeOutcome where
  | ok
  | failLoad (msg : String)
  | failWrite (msg : String)
  deriving DecidableEq, Repr

/-- The four stage adapters. -/
inductive Stage where
  | analyze
  | composePrompt
  | generateAudio
  | merge
  deriving DecidableEq, Repr

/-- Environment of one pipeline run: the measured video duration, the
outcome of each of the four stage adapter calls, and the stem of the
uploaded file's name (used in the final output's name). -/
structure RunConfig where
  duration : ℚ
  analyze : Outcome
  composePrompt : Outcome
  generateAudio : Outcome
  merge : MergeOutcome
  videoStem : String

/-- Python's `round` (half to even) of a rational. -/
def roundHalfEven (q : ℚ) : Int :=
  let f := ⌊q⌋
  let r := q - (f : ℚ)
  if r < 1 / 2 then f
  else if 1 / 2 < r then f + 1
  else if f % 2 = 0 then f else f + 1

/-- Python's `"{:.1f}"` formatting of a non-negative duration (one decimal
place, half-to-even), on the idealized rational value. -/
def pyFormat1 (q : ℚ) : String :=
  let n := roundHalfEven (q * 10)
  toString (n / 10) ++ "." ++ toString (n % 10)

/-- The fixed sentence naming the duration ceiling. -/
def limitSentence : String := "Maximum allowed duration is 60 seconds."

/-- The duration-validation message, `f"Video is too long ({duration:.1f}s).
Maximum allowed duration is 60 seconds."`, used verbatim by both the
streaming `ValueError` and the non-streaming `HTTPException` detail. -/
def tooLongMessage (d : ℚ) : String :=
  ("Video is too long (" ++ pyFormat1 d ++ "s). ") ++ limitSentence

/-- One SSE progress record `{"stage": ..., "message": ..., "progress": ...}`. -/
structure Event where
  stage : String
  message : String
  progress : ℕ
  deriving DecidableEq, Repr

/-- Observable state of one streaming run when `progress_generator`
returns: the emitted event sequence, which stage adapters were invoked (in
order), and which transient artifacts are still on disk (the uploaded
video temp file, the downloaded audio file, the merged output temp file). -/
structure RunState where
  events : List Event
  invoked : List Stage
  tempVideoOnDisk : Bool
  audioOnDisk : Bool
  outputOnDisk : Bool
  deriving DecidableEq, Repr

/-- `progress_generator`: yield the upload event; validate the duration
(`if duration > 60: raise ValueError(...)`); run the four stages in order,
yielding the fixed-checkpoint events around each; on success delete the
audio and merged-output temp files and yield the `done` event; any
exception yields one `{"stage": "error", "progress": 0}` event carrying
`str(e)`; the `finally` block always deletes the uploaded video temp
file.  The audio file exists on disk from the moment `generate_audio`
succeeds; the merged output temp file from the moment
`combine_video_audio` creates it with `NamedTemporaryFile(delete=False)`
— which happens before `write_videofile` runs, so it exists after a
mid-write Merge failure as well as on success; neither file is deleted on
the error paths. -/
def progress_generator (cfg : RunConfig) : RunState :=
  let ev0 := [Event.mk "uploading" "Video uploaded successfully" 10]
  if cfg.duration > 60 then
    { events := ev0 ++ [Event.mk "error" (tooLongMessage cfg.duration) 0],
      invoked := [], tempVideoOnDisk := false, audioOnDisk := false,
      outputOnDisk := false }
  else
    let ev1 := ev0 ++ [Event.mk "analyzing" "Analyzing video with Google Cloud AI..." 15]
    match cfg.analyze with
    | .fail m =>
      { events := ev1 ++ [Event.mk "error" m 0], invoked := [.analyze],
        tempVideoOnDisk := false, audioOnDisk := false, outputOnDisk := false }
    | .ok =>
      let ev2 := ev1 ++ [Event.mk "analyzing" "Video analysis complete" 35,
        Event.mk "prompting" "Crafting music prompt with OpenAI..." 40]
      match cfg.composePrompt with
      | .fail m =>
        { events := ev2 ++ [Event.mk "error" m 0],
          invoked := [.analyze, .composePrompt],
          tempVideoOnDisk := false, audioOnDisk := false, outputOnDisk := false }
      | .ok =>
        let ev3 := ev2 ++ [Event.mk "prompting" "Music prompt generated" 55,
          Event.mk "generating" "Generating audio with Suno AI..." 60]
        match cfg.generateAudio with
        | .fail m =>
          { events := ev3 ++ [Event.mk "error" m 0],
            invoked := [.analyze, .composePrompt, .generateAudio],
            tempVideoOnDisk := false, audioOnDisk := false, outputOnDisk := false }
        | .ok =>
          let ev4 := ev3 ++ [Event.mk "generating" "Audio generated successfully" 80,
            Event.mk "combining" "Combining video and audio..." 85]
          match cfg.merge with
          | .failLoad m =>
            { events := ev4 ++ [Event.mk "error" m 0],
              invoked := [.analyze, .composePrompt, .generateAudio, .merge],
              tempVideoOnDisk := false, audioOnDisk := true, outputOnDisk := false }
          | .failWrite m =>
            { events := ev4 ++ [Event.mk "error" m 0],
              invoked := [.analyze, .composePrompt, .generateAudio, .merge],
              tempVideoOnDisk := false, audioOnDisk := true, outputOnDisk := true }
          | .ok =>
            { events := ev4 ++
                [Event.mk "done" ("Complete! File: output_" ++ cfg.videoStem ++ ".mp4") 100],
              invoked := [.analyze, .composePrompt, .generateAudio, .merge],
              tempVideoOnDisk := false, audioOnDisk := false, outputOnDisk := false }

/-- An HTTP error response of the non-streaming endpoint
(`HTTPException(status_code, detail)`). -/
structure ApiError where
  status : ℕ
  detail : String
  deriving DecidableEq, Repr

/-- Observable state of one non-streaming run when
`generate_video_with_audio` returns: the response (error or the served
video), the invoked stage adapters, and the on-disk transient artifacts. -/
structure EndpointRun where
  result : Except ApiError Unit
  invoked : List Stage
  tempVideoOnDisk : Bool
  audioOnDisk : Bool
  outputOnDisk : Bool
  deriving Repr

/-- `generate_video_with_audio`: save the upload; validate the duration
(`HTTPException(400, ...)` if over 60); run the four stages in order, each
wrapped in a `try/except` that re-raises as `HTTPException(500,
"<Stage> failed: " + str(e))`; on success copy the output, delete the
audio and merged-output temp files and serve the bytes; the `finally`
block always deletes the uploaded video temp file. -/
def generate_video_with_audio (cfg : RunConfig) : EndpointRun :=
  if cfg.duration > 60 then
    { result := .error ⟨400, tooLongMessage cfg.duration⟩, invoked := [],
      tempVideoOnDisk := false, audioOnDisk := false, outputOnDisk := false }
  else
    match cfg.analyze with
    | .fail m =>
      { result := .error ⟨500, "GCP Analysis failed: " ++ m⟩, invoked := [.analyze],
        tempVideoOnDisk := false, audioOnDisk := false, outputOnDisk := false }
    | .ok =>
      match cfg.composePrompt with
      | .fail m =>
        { result := .error ⟨500, "OpenAI Prompt Generation failed: " ++ m⟩,
          invoked := [.analyze, .composePrompt],
          tempVideoOnDisk := false, audioOnDisk := false, outputOnDisk := false }
      | .ok =>
        match cfg.generateAudio with
        | .fail m =>
          { result := .error ⟨500, "Suno Audio Generation failed: " ++ m⟩,
            invoked := [.analyze, .composePrompt, .generateAudio],
            tempVideoOnDisk := false, audioOnDisk := false, outputOnDisk := false }
        | .ok =>
          match cfg.merge with
          | .failLoad m =>
            { result := .error ⟨500, "Media Combination failed: " ++ m⟩,
              invoked := [.analyze, .composePrompt, .generateAudio, .merge],
              tempVideoOnDisk := false, audioOnDisk := true, outputOnDisk := false }
          | .failWrite m =>
            { result := .error ⟨500, "Media Combination failed: " ++ m⟩,
              invoked := [.analyze, .composePrompt, .generateAudio, .merge],
              tempVideoOnDisk := false, audioOnDisk := true, outputOnDisk := true }
          | .ok =>
            { result := .ok (),
              invoked := [.analyze, .composePrompt, .generateAudio, .merge],
              tempVideoOnDisk := false, audioOnDisk := false, outputOnDisk := false }

/-- The fixed progress checkpoints of the streaming pipeline. -/
def checkpoints : List ℕ := [10, 15, 35, 40, 55, 60, 80, 85, 100]

/-- A progress trace is monotonically non-decreasing and drawn from the
fixed checkpoints. -/
def MonotoneCheckpointed (l : List ℕ) : Prop :=
  l.Chain' (· ≤ ·) ∧ ∀ p ∈ l, p ∈ checkpoints

/-- A prompt-composition environment whose duration argument is negative
(`-5`), with the chat completions succeeding. -/
def negativeDurationCfg : PromptConfig :=
  { videoContext := "two dogs running on a beach", videoDuration := some (-5),
    modelResponse := .ok "RESPONSE", negativeResponse := .ok "calm" }

/-! ## Theorems -/

/-- C6: `combine_video_audio` output length policy: if the audio is longer
than the video it is truncated, so the merged output has the video's
length and its audio stops at the video's end; if the audio is no longer
than the video it is neither looped nor padded: the merged output still
has the video's length and the audio stops at its own length, with
silence after. -/
theorem C6_merge_lengths (videoLen audioLen : ℚ) :
    (audioLen > videoLen →
      (combine_video_audio videoLen audioLen).videoLen = videoLen ∧
      (combine_video_audio videoLen audioLen).audioEnd = videoLen) ∧
    (audioLen ≤ videoLen →
      (combine_video_audio videoLen audioLen).videoLen = videoLen ∧
      (combine_video_audio videoLen audioLen).audioEnd = audioLen) := by
  constructor
  · intro h
    simp [combine_video_audio, set_audio, if_pos h]
  · intro h
    simp [combine_video_audio, set_audio, if_neg (not_lt.mpr h)]

/-- C2 counterexample: at duration `d = 2` (a valid duration in `(0, 60]`)
the derived timings violate the claimed ordering: `intro_end = 1/2` but
`verse_end = min(1.5, -1) = -1`, so `intro_end ≤ verse_end` fails. -/
theorem C2_counterexample :
    ¬ (sectionTimings 2).intro_end ≤ (sectionTimings 2).verse_end := by
  norm_num [sectionTimings]

/-- C2 (amended): for every duration the derived timings satisfy
`intro_end = min(0.25·d, 8)`, `verse_end = min(0.75·d, d - 3)` and
`outro_start = verse_end`; the ordering `intro_end ≤ verse_end ≤ d` holds
for every `d` in `[4, 60]` (for `d < 4`, `verse_end = d - 3 < 0.25·d =
intro_end`, so the ordering fails there). -/
theorem C2_timings_amended (d : ℚ) :
    (sectionTimings d).intro_end = min (d * (1 / 4)) 8 ∧
    (sectionTimings d).verse_end = min (d * (3 / 4)) (d - 3) ∧
    (sectionTimings d).outro_start = (sectionTimings d).verse_end ∧
    (4 ≤ d → d ≤ 60 →
      (sectionTimings d).intro_end ≤ (sectionTimings d).verse_end ∧
      (sectionTimings d).verse_end ≤ d) := by
  refine ⟨rfl, rfl, rfl, fun h4 _h60 => ⟨?_, ?_⟩⟩
  · show min (d * (1 / 4)) 8 ≤ min (d * (3 / 4)) (d - 3)
    refine le_min ?_ ?_
    · exact le_trans (min_le_left _ _) (by linarith)
    · exact le_trans (min_le_left _ _) (by linarith)
  · show min (d * (3 / 4)) (d - 3) ≤ d
    exact le_trans (min_le_right _ _) (by linarith)

/-- C9 counterexample: a negative duration (`-5`) is NOT rejected by
`generate_suno_prompt`'s guard (`if not video_duration` only catches
`None` and `0`): the chat-completion call is issued and the call
returns a successful prompt result. -/
theorem C9_counterexample :
    (generate_suno_prompt negativeDurationCfg).calledModel = true ∧
    (generate_suno_prompt negativeDurationCfg).result =
      .ok { prompt := "RESPONSE", tags := "Cinematic, 100 BPM",
            negative_tags := "calm" } := by
  constructor
  · rfl
  · show Except.ok _ = _
    congr 1

/-- C9 (amended): `generate_suno_prompt` fails with the
missing-duration `ValueError` exactly when the duration argument is
`None` or `0` (Python falsiness), and proceeds to issue the
chat-completion request for every other duration — including negative
ones. -/
theorem C9_amended (cfg : PromptConfig) :
    ((cfg.videoDuration = none ∨ cfg.videoDuration = some 0) →
      (generate_suno_prompt cfg).result =
        .error "video_duration is REQUIRED to generate accurate music timing" ∧
      (generate_suno_prompt cfg).calledModel = false) ∧
    (∀ d : ℚ, cfg.videoDuration = some d → d ≠ 0 →
      (generate_suno_prompt cfg).calledModel = true) := by
  constructor
  · rintro (h | h) <;> rw [generate_suno_prompt, h]
    · exact ⟨rfl, rfl⟩
    · simp
  · intro d hd hne
    rw [generate_suno_prompt, hd]
    simp only [if_neg hne]
    cases cfg.modelResponse <;> rfl

/-- C10: when the configured `SUNO_API_KEY` is empty, `generate_audio`
raises the `ValueError` immediately and no remote interaction (in
particular no submission) is attempted; when the key is non-empty the
submission request is issued. -/
theorem C10_api_key_guard (cfg : AudioConfig) :
    (cfg.apiKey = "" →
      generate_audio cfg = (.error "SUNO_API_KEY is missing in .env file", [])) ∧
    (cfg.apiKey ≠ "" → AudioAction.submitRequest ∈ (generate_audio cfg).2) := by
  constructor
  · intro h
    rw [generate_audio, if_pos h]
  · intro h
    rw [generate_audio, if_neg h]
    rcases cfg.submitResponse with m | genId
    · simp
    · rcases hp : (pollForCompletion cfg.pollResponses).1 with url | m
      · rcases cfg.downloadResponse with m | path <;> simp [hp]
      · simp [hp]
      · simp [hp]

/-- On a response sequence that never leaves the pending states, the
polling loop consumes all its admitted iterations, issuing one status
check per tick, and ends in timeout. -/
theorem pollAux_pending (responses : ℕ → PollResponse)
    (h : ∀ i, PendingResponse (responses i)) :
    ∀ c i acc, pollAux responses c i acc =
      (PollResult.timeout, acc ++ List.replicate c PollAction.statusCheck) := by
  intro c
  induction c with
  | zero => intro i acc; simp [pollAux]
  | succ c ih =>
    intro i acc
    obtain ⟨url, m, hcase | hcase⟩ := h i <;>
      rw [pollAux, hcase] <;> dsimp only <;>
      rw [if_neg (by simp), if_neg (by simp), ih] <;>
      simp [List.replicate_succ]

/-- A `remoteError` outcome of the polling loop always stems from a
response whose clip status is `"error"` with that message. -/
theorem pollAux_remoteError (responses : ℕ → PollResponse) :
    ∀ c i acc msg trace,
      pollAux responses c i acc = (PollResult.remoteError msg, trace) →
      ∃ j url, responses j = PollResponse.clip "error" url msg := by
  intro c
  induction c with
  | zero =>
    intro i acc msg trace heq
    simp [pollAux] at heq
  | succ c ih =>
    intro i acc msg trace heq
    rw [pollAux] at heq
    rcases hr : responses i with _ | _ | ⟨status, url, errMsg⟩ <;>
      rw [hr] at heq <;> dsimp only at heq
    · exact ih _ _ _ _ heq
    · exact ih _ _ _ _ heq
    · by_cases h1 : status = "complete" ∧ url ≠ ""
      · rw [if_pos h1] at heq
        simp at heq
      · rw [if_neg h1] at heq
        by_cases h2 : status = "error"
        · rw [if_pos h2] at heq
          obtain ⟨heq1, -⟩ := Prod.mk.injEq .. ▸ heq
          obtain rfl := (PollResult.remoteError.injEq .. ▸ heq1)
          exact ⟨i, url, by rw [hr, h2]⟩
        · rw [if_neg h2] at heq
          exact ih _ _ _ _ heq

/-- Sequence of responses that is forever `"processing"`, used as the
concrete never-terminating remote job. -/
def foreverProcessing : ℕ → PollResponse :=
  fun _ => .clip "processing" "" ""

/-- Sequence of responses that is forever `"complete"` with an empty
`audio_url`, the malformed-completion scenario of C7. -/
def foreverEmptyComplete : ℕ → PollResponse :=
  fun _ => .clip "complete" "" ""

/-- C4 counterexample: on a remote job that stays `"processing"` forever,
`_poll_for_completion` does time out — but at no point does it issue any
cancellation request to the remote service (its only remote interactions
are the 60 status checks), contradicting the claimed best-effort
cancellation before failing. -/
theorem C4_counterexample :
    (pollForCompletion foreverProcessing).1 = PollResult.timeout ∧
    PollAction.cancelRequest ∉ (pollForCompletion foreverProcessing).2 ∧
    (pollForCompletion foreverProcessing).2.length = 60 := by
  refine ⟨?_, ?_, ?_⟩ <;> decide

/-- C4 (amended): for every remote status sequence that never leaves the
submitted/processing states, `_poll_for_completion` fails with the
timeout outcome once the accumulated elapsed time reaches
`MAX_WAIT_TIME` — i.e. after exactly `MAX_WAIT_TIME / POLL_INTERVAL`
status checks, one per `POLL_INTERVAL` tick — and it issues no
cancellation request to the remote service (the source contains no
cancellation call). -/
theorem C4_amended (responses : ℕ → PollResponse)
    (h : ∀ i, PendingResponse (responses i)) :
    (pollForCompletion responses).1 = PollResult.timeout ∧
    (pollForCompletion responses).2.length = MAX_WAIT_TIME / POLL_INTERVAL ∧
    PollAction.cancelRequest ∉ (pollForCompletion responses).2 := by
  rw [pollForCompletion, pollAux_pending responses h]
  refine ⟨rfl, by simp, ?_⟩
  simp [List.mem_replicate]

/-- C4 witness: the amended theorem applied to the concrete
always-`"submitted"` status sequence. -/
theorem C4_witness :
    (pollForCompletion (fun _ => PollResponse.clip "submitted" "" "x")).1 =
      PollResult.timeout ∧
    (pollForCompletion (fun _ => PollResponse.clip "submitted" "" "x")).2.length =
      MAX_WAIT_TIME / POLL_INTERVAL ∧
    PollAction.cancelRequest ∉
      (pollForCompletion (fun _ => PollResponse.clip "submitted" "" "x")).2 :=
  C4_amended (fun _ => PollResponse.clip "submitted" "" "x")
    (fun _ => ⟨"", "x", Or.inl rfl⟩)

/-- C7 counterexample: a remote job that forever reports status
`"complete"` with an empty `audio_url` is NOT treated as an error
condition: the poller keeps polling (all 60 ticks are consumed) and ends
in the generic timeout, not in any malformed-completion failure. -/
theorem C7_counterexample :
    (pollForCompletion foreverEmptyComplete).1 = PollResult.timeout ∧
    (pollForCompletion foreverEmptyComplete).2.length = 60 := by
  constructor <;> decide

/-- C7 (amended): on a `"complete"` status with a non-empty result
locator the poller returns that locator at once; on a `"complete"` status
with an empty locator it behaves exactly like a pending state — it sleeps
one interval and keeps polling (so an unchanging empty completion ends in
the timeout failure, not a malformed-completion error). -/
theorem C7_amended (responses : ℕ → PollResponse) (c i : ℕ)
    (acc : List PollAction) (url m : String) :
    (responses i = PollResponse.clip "complete" url m → url ≠ "" →
      pollAux responses (c + 1) i acc =
        (PollResult.success url, acc ++ [PollAction.statusCheck])) ∧
    (responses i = PollResponse.clip "complete" "" m →
      pollAux responses (c + 1) i acc =
        pollAux responses c (i + 1) (acc ++ [PollAction.statusCheck])) := by
  constructor
  · intro hr hu
    rw [pollAux, hr]
    dsimp only
    rw [if_pos ⟨rfl, hu⟩]
  · intro hr
    rw [pollAux, hr]
    dsimp only
    rw [if_neg (by simp), if_neg (by simp)]

/-- C8: a transient failure of a single status fetch never terminates the
poll: (a) on a fetch error the loop just moves to the next tick with one
more status check issued; (b) any error outcome of a polling run stems
from an explicit remote `"error"` status, never from a fetch failure. -/
theorem C8_transient_fetch :
    (∀ (responses : ℕ → PollResponse) (c i : ℕ) (acc : List PollAction),
      responses i = PollResponse.fetchError →
      pollAux responses (c + 1) i acc =
        pollAux responses c (i + 1) (acc ++ [PollAction.statusCheck])) ∧
    (∀ (responses : ℕ → PollResponse) (c i : ℕ) (acc : List PollAction)
      (msg : String) (trace : List PollAction),
      pollAux responses c i acc = (PollResult.remoteError msg, trace) →
      ∃ j url, responses j = PollResponse.clip "error" url msg) := by
  constructor
  · intro responses c i acc hr
    rw [pollAux, hr]
  · intro responses c i acc msg trace heq
    exact pollAux_remoteError responses c i acc msg trace heq

/-- C1: in both endpoints, an input whose measured duration exceeds 60
seconds fails with the validation error whose message names the 60-second
limit, before any of the four stage adapters is invoked (the invoked list
is empty); for a duration of at most 60 the check passes and the Analyze
adapter is invoked. -/
theorem C1_duration_gate (cfg : RunConfig) :
    (cfg.duration > 60 →
      (progress_generator cfg).invoked = [] ∧
      (progress_generator cfg).events.getLast? =
        some (Event.mk "error" (tooLongMessage cfg.duration) 0) ∧
      (generate_video_with_audio cfg).invoked = [] ∧
      (generate_video_with_audio cfg).result =
        Except.error (ApiError.mk 400 (tooLongMessage cfg.duration))) ∧
    (cfg.duration ≤ 60 →
      Stage.analyze ∈ (progress_generator cfg).invoked ∧
      Stage.analyze ∈ (generate_video_with_audio cfg).invoked) ∧
    (∃ p, tooLongMessage cfg.duration = p ++ limitSentence) := by
  refine ⟨?_, ?_, ⟨_, rfl⟩⟩
  · intro h
    rw [progress_generator, generate_video_with_audio, if_pos h, if_pos h]
    exact ⟨rfl, by simp, rfl, rfl⟩
  · intro h
    rw [progress_generator, generate_video_with_audio,
      if_neg (not_lt.mpr h), if_neg (not_lt.mpr h)]
    cases cfg.analyze <;> cases cfg.composePrompt <;>
      cases cfg.generateAudio <;> cases cfg.merge <;> dsimp only <;>
      exact ⟨by simp, by simp⟩

/-- A run in which the duration is valid, the first three stages succeed
and the Merge stage fails during `write_videofile`, after the output temp
file has been created on disk. -/
def mergeFailCfg : RunConfig :=
  { duration := 10, analyze := .ok, composePrompt := .ok,
    generateAudio := .ok,
    merge := .failWrite "Failed to write final video file",
    videoStem := "clip" }

/-- C3 counterexample: on a run where the Merge stage fails during the
output write (in either endpoint), both the downloaded audio file and the
merged output temp file are still on disk when the run returns —
artifacts created during the run survive an exit path, contradicting the
claimed cleanup of every transient artifact. -/
theorem C3_counterexample :
    (progress_generator mergeFailCfg).audioOnDisk = true ∧
    (generate_video_with_audio mergeFailCfg).audioOnDisk = true ∧
    (progress_generator mergeFailCfg).outputOnDisk = true ∧
    (generate_video_with_audio mergeFailCfg).outputOnDisk = true := by
  refine ⟨?_, ?_, ?_, ?_⟩ <;> decide

/-- C3 (amended): in both endpoints the uploaded video temp file is
always deleted before the run returns, but the audio and merged-output
temp files are deleted only on the success path: the downloaded audio
file survives exactly on the runs that pass validation, reach the Merge
stage and fail there, and the merged output temp file (created by
`NamedTemporaryFile(delete=False)` before the write) additionally
survives exactly when that Merge failure happens during
`write_videofile`. -/
theorem C3_cleanup_amended (cfg : RunConfig) :
    ((progress_generator cfg).tempVideoOnDisk = false ∧
     ((progress_generator cfg).audioOnDisk = true ↔
       cfg.duration ≤ 60 ∧ cfg.analyze = .ok ∧ cfg.composePrompt = .ok ∧
       cfg.generateAudio = .ok ∧ cfg.merge ≠ .ok) ∧
     ((progress_generator cfg).outputOnDisk = true ↔
       cfg.duration ≤ 60 ∧ cfg.analyze = .ok ∧ cfg.composePrompt = .ok ∧
       cfg.generateAudio = .ok ∧ ∃ m, cfg.merge = .failWrite m)) ∧
    ((generate_video_with_audio cfg).tempVideoOnDisk = false ∧
     ((generate_video_with_audio cfg).audioOnDisk = true ↔
       cfg.duration ≤ 60 ∧ cfg.analyze = .ok ∧ cfg.composePrompt = .ok ∧
       cfg.generateAudio = .ok ∧ cfg.merge ≠ .ok) ∧
     ((generate_video_with_audio cfg).outputOnDisk = true ↔
       cfg.duration ≤ 60 ∧ cfg.analyze = .ok ∧ cfg.composePrompt = .ok ∧
       cfg.generateAudio = .ok ∧ ∃ m, cfg.merge = .failWrite m)) := by
  by_cases h : cfg.duration > 60
  · rw [progress_generator, generate_video_with_audio, if_pos h, if_pos h]
    have hn : ¬ cfg.duration ≤ 60 := not_le.mpr h
    simp [hn]
  · rw [progress_generator, generate_video_with_audio, if_neg h, if_neg h]
    have h60 : cfg.duration ≤ 60 := not_lt.mp h
    cases cfg.analyze <;> cases cfg.composePrompt <;>
      cases cfg.generateAudio <;> cases cfg.merge <;> simp [h60]

/-- C5: every streaming run emits a non-empty event sequence that ends
either with the terminal `stage="done", progress=100` event or with the
terminal `stage="error", progress=0` event; the progress values of all
events other than a terminal error event are monotonically non-decreasing
and drawn from the fixed checkpoints 10, 15, 35, 40, 55, 60, 80, 85,
100. -/
theorem C5_progress_events (cfg : RunConfig) :
    (progress_generator cfg).events ≠ [] ∧
    ((((progress_generator cfg).events.map Event.stage).getLast? = some "done" ∧
      ((progress_generator cfg).events.map Event.progress).getLast? = some 100 ∧
      MonotoneCheckpointed ((progress_generator cfg).events.map Event.progress)) ∨
     (((progress_generator cfg).events.map Event.stage).getLast? = some "error" ∧
      ((progress_generator cfg).events.map Event.progress).getLast? = some 0 ∧
      MonotoneCheckpointed
        (((progress_generator cfg).events.map Event.progress).dropLast))) := by
  by_cases h : cfg.duration > 60
  · rw [progress_generator, if_pos h]
    refine ⟨by simp, Or.inr ⟨by simp, by simp, ?_⟩⟩
    simp [MonotoneCheckpointed, checkpoints, List.chain'_cons]
  · rw [progress_generator, if_neg h]
    cases cfg.analyze with
    | fail m =>
      exact ⟨by simp, Or.inr ⟨by simp, by simp,
        by simp [MonotoneCheckpointed, checkpoints, List.chain'_cons]⟩⟩
    | ok =>
      cases cfg.composePrompt with
      | fail m =>
        exact ⟨by simp, Or.inr ⟨by simp, by simp,
          by simp [MonotoneCheckpointed, checkpoints, List.chain'_cons]⟩⟩
      | ok =>
        cases cfg.generateAudio with
        | fail m =>
          exact ⟨by simp, Or.inr ⟨by simp, by simp,
            by simp [MonotoneCheckpointed, checkpoints, List.chain'_cons]⟩⟩
        | ok =>
          cases cfg.merge with
          | failLoad m =>
            exact ⟨by simp, Or.inr ⟨by simp, by simp,
              by simp [MonotoneCheckpointed, checkpoints, List.chain'_cons]⟩⟩
          | failWrite m =>
            exact ⟨by simp, Or.inr ⟨by simp, by simp,
              by simp [MonotoneCheckpointed, checkpoints, List.chain'_cons]⟩⟩
          | ok =>
            exact ⟨by simp, Or.inl ⟨by simp, by simp,
              by simp [MonotoneCheckpointed, checkpoints, List.chain'_cons]⟩⟩

end Bruno
